import Mathlib

/-!
Verification development for the skytemple-ssb-debugger core
(emulator thread, main controller savestate/loadstate and breakpoint
teardown paths, debug overlay cache).

Shallow embedding: the Python functions of
  skytemple_ssb_debugger/emulator_thread.py
  skytemple_ssb_debugger/controller/main.py
  skytemple_ssb_debugger/controller/debug_overlay.py
are translated into pure Lean functions over explicit state records.
External effects (emulator calls, file writes, GTK dialogs) are modelled
as effect events emitted in program order, and I/O success is an
explicit oracle argument.
-/

namespace SkyTemple

/-! ## Emulator thread (emulator_thread.py) -/

/-- TICKS_PER_FRAME constant (emulator_thread.py line 30). -/
def TICKS_PER_FRAME : ℚ := 17

/-- FRAMES_PER_SECOND constant (emulator_thread.py line 31). -/
def FRAMES_PER_SECOND : ℚ := 60

/-- The wait computed in `_emu_cycle` before clamping (line 159):
`(1 / FRAMES_PER_SECOND) - (ticks_cur_frame - ticks_prev_frame - TICKS_PER_FRAME + 2) / 1000`.
Tick counters are integers (milliseconds from the emulator); the arithmetic
is modelled over ℚ. -/
def ticks_to_wait_raw (ticksPrevFrame ticksCurFrame : ℤ) : ℚ :=
  1 / FRAMES_PER_SECOND - ((ticksCurFrame : ℚ) - (ticksPrevFrame : ℚ) - TICKS_PER_FRAME + 2) / 1000

/-- The wait after the clamp `if ticks_to_wait < 0: ticks_to_wait = 0`
(lines 161-162). -/
def ticks_to_wait (ticksPrevFrame ticksCurFrame : ℤ) : ℚ :=
  let r := ticks_to_wait_raw ticksPrevFrame ticksCurFrame
  if r < 0 then 0 else r

/-- The delay passed to `loop.call_later(ticks_to_wait, self._emu_cycle)`
(line 166): the cycle schedules its successor after exactly the computed wait. -/
def next_cycle_delay (ticksPrevFrame ticksCurFrame : ℤ) : ℚ :=
  ticks_to_wait ticksPrevFrame ticksCurFrame

/-- State of EmulatorThread relevant to the main-loop chain:
the `registered_main_loop` flag and the number of `_emu_cycle` callbacks
currently queued on the event loop (via `call_soon_threadsafe` or
`call_later`). -/
structure EmuThreadState where
  registeredMainLoop : Bool
  pendingCycles : Nat
deriving DecidableEq, Repr

/-- Initial state (constructor line 61: `self.registered_main_loop = False`,
nothing queued yet). -/
def initEmuThread : EmuThreadState :=
  { registeredMainLoop := false, pendingCycles := 0 }

/-- `register_main_loop` (lines 104-109): under the start lock, if the flag
is not set, queue one `_emu_cycle` callback and set the flag. -/
def register_main_loop (s : EmuThreadState) : EmuThreadState :=
  if s.registeredMainLoop then s
  else { registeredMainLoop := true, pendingCycles := s.pendingCycles + 1 }

/-- One run of a queued `_emu_cycle` callback (lines 134-175).
`emuOk` is the truthiness of `self.emu`; `running` is `self.emu.is_running()`.
If no callback is queued the event loop runs nothing.
When `self.emu` is falsy or the emulator is not running the flag is cleared
and nothing is rescheduled; otherwise the cycle reschedules itself once via
`call_later`. -/
def emu_cycle (emuOk running : Bool) (s : EmuThreadState) : EmuThreadState :=
  if s.pendingCycles = 0 then s
  else
    let p := s.pendingCycles - 1
    if !emuOk then { registeredMainLoop := false, pendingCycles := p }
    else if running then { registeredMainLoop := s.registeredMainLoop, pendingCycles := p + 1 }
    else { registeredMainLoop := false, pendingCycles := p }

/-- Interleavings of the two operations that touch the main-loop chain. -/
inductive EmuOp where
  | registerLoop : EmuOp
  | cycle (emuOk running : Bool) : EmuOp
deriving DecidableEq, Repr

def emuStep (s : EmuThreadState) (op : EmuOp) : EmuThreadState :=
  match op with
  | EmuOp.registerLoop => register_main_loop s
  | EmuOp.cycle emuOk running => emu_cycle emuOk running s

/-- Run a sequence of operations from the initial thread state. -/
def runEmu (ops : List EmuOp) : EmuThreadState :=
  List.foldl emuStep initEmuThread ops

/-- The cycle-chain invariant: exactly one `_emu_cycle` callback is queued
while the `registered_main_loop` flag is set, none while it is clear. -/
def CycleChainInv (s : EmuThreadState) : Prop :=
  s.pendingCycles = if s.registeredMainLoop then 1 else 0

instance (s : EmuThreadState) : Decidable (CycleChainInv s) := by
  unfold CycleChainInv; infer_instance

/-- Modelled from the spec: the `THREAD_DEBUG` flag lives in
`skytemple_ssb_debugger/threadsafe.py`, which is not under src/. The spec's
access-violation guard requires that cross-thread access fail fast, so the
flag is modelled as enabled. -/
def THREAD_DEBUG : Bool := true

/-- Error message raised by the `emu` accessor (emulator_thread.py line 74);
the spelling follows the source. -/
def EMU_ACCESS_ERROR : String :=
  "The emulator may only be accessed from withing the emulator thread"

/-- The `emu` property (lines 71-75): raises when `THREAD_DEBUG` is set and
the current thread is not the emulator thread, else returns the emulator
object. Threads are identified by numbers, the emulator object by an opaque
number. -/
def emu_accessor (threadDebug : Bool) (currentThread threadInstance : Nat) (e : Nat) :
    Except String Nat :=
  if threadDebug && !(currentThread == threadInstance) then
    Except.error EMU_ACCESS_ERROR
  else
    Except.ok e

/-! ## Debug overlay (controller/debug_overlay.py) -/

/-- An axis-aligned bounding box as returned by
`entity.get_bounding_box_camera(ges.map)`: `(x1, y1, x2, y2)`. -/
structure BBox where
  x1 : ℤ
  y1 : ℤ
  x2 : ℤ
  y2 : ℤ
deriving DecidableEq, Repr

/-- Modelled from the spec: GroundEngineState
(`model/ground_engine_state.py` is not under src/). Per spec section 3 it
owns a running flag and four ordered entity collections; each entity is
modelled directly by its camera bounding box (`None` entries included,
since the overlay filters them with `not_none`). -/
structure GroundEngineView where
  running : Bool
  actors : List (Option BBox)
  objects : List (Option BBox)
  performers : List (Option BBox)
  events : List (Option BBox)
deriving DecidableEq, Repr

/-- `not_none` generator (debug_overlay.py lines 134-137): drops `None`
entries. -/
def not_none (l : List (Option BBox)) : List BBox :=
  l.filterMap id

/-- State of DebugOverlayController (constructor lines 43-55). -/
structure OverlayState where
  enabled : Bool
  debuggerPresent : Bool
  refreshCache : Bool
  cacheRunning : Bool
  cacheRedrawingRegistered : Bool
  actorBboxCache : List BBox
  objectBboxCache : List BBox
  perfBboxCache : List BBox
  eventBboxCache : List BBox
deriving DecidableEq, Repr

/-- Constructor state: `enabled = False`, `_refresh_cache = True`,
`_cache_running = False`, `_cache_redrawing_registered = False`, empty
caches. `debuggerPresent` records truthiness of `self.debugger`. -/
def mkOverlay (debuggerPresent : Bool) : OverlayState :=
  { enabled := false, debuggerPresent := debuggerPresent, refreshCache := true,
    cacheRunning := false, cacheRedrawingRegistered := false,
    actorBboxCache := [], objectBboxCache := [], perfBboxCache := [],
    eventBboxCache := [] }

/-- `toggle` (line 57-58). -/
def overlayToggle (state : Bool) (s : OverlayState) : OverlayState :=
  { s with enabled := state }

/-- `break_pulled` (lines 100-102): the debugger halted; stop refreshing. -/
def overlayBreakPulled (s : OverlayState) : OverlayState :=
  { s with refreshCache := false }

/-- `break_released` (lines 104-106): allow refreshing again. -/
def overlayBreakReleased (s : OverlayState) : OverlayState :=
  { s with refreshCache := true }

/-- One invocation of the `_update_cache` coroutine body (lines 108-131).
Under the lock it copies `ges.running` into `_cache_running` and, when
running, rebuilds the four bounding-box caches from the ground engine
state. Afterwards, if `_refresh_cache` is still set it reschedules itself
(returned Bool `true`); otherwise it clears
`_cache_redrawing_registered` and ends the chain (`false`). -/
def update_cache (ges : GroundEngineView) (s : OverlayState) : OverlayState × Bool :=
  let s1 := { s with cacheRunning := ges.running }
  let s2 :=
    if ges.running then
      { s1 with actorBboxCache := not_none ges.actors,
                objectBboxCache := not_none ges.objects,
                perfBboxCache := not_none ges.performers,
                eventBboxCache := not_none ges.events }
    else s1
  if s2.refreshCache then (s2, true)
  else ({ s2 with cacheRedrawingRegistered := false }, false)

/-- Result of a `draw` call: the updated controller state, whether a refresh
chain was scheduled (`threadsafe_emu_nonblocking_coro(..., _update_cache)`),
and the filled rectangles `(x, y, w, h)` in draw order. -/
structure DrawResult where
  state : OverlayState
  scheduledRefresh : Bool
  rects : List (ℤ × ℤ × ℤ × ℤ)
deriving DecidableEq, Repr

/-- The rectangles filled for one cache collection:
`ctx.rectangle(bbox[0], bbox[1], bbox[2] - bbox[0], bbox[3] - bbox[1])`. -/
def fillRects (l : List BBox) : List (ℤ × ℤ × ℤ × ℤ) :=
  l.map (fun b => (b.x1, b.y1, b.x2 - b.x1, b.y2 - b.y1))

/-- `draw` (lines 60-98): only acts for display 1 with the overlay enabled
and a debugger present; schedules the refresh chain when `_refresh_cache`
is set and no chain is registered; draws the cached boxes only when
`_cache_running` is set. -/
def draw (displayId : Nat) (s : OverlayState) : DrawResult :=
  if displayId == 1 && s.enabled && s.debuggerPresent then
    let sched := s.refreshCache && !s.cacheRedrawingRegistered
    let s1 := if sched then { s with cacheRedrawingRegistered := true } else s
    if s1.cacheRunning then
      { state := s1, scheduledRefresh := sched,
        rects := fillRects s1.actorBboxCache ++ fillRects s1.objectBboxCache
          ++ fillRects s1.perfBboxCache ++ fillRects s1.eventBboxCache }
    else
      { state := s1, scheduledRefresh := sched, rects := [] }
  else
    { state := s, scheduledRefresh := false, rects := [] }

/-! ## Main controller (controller/main.py) -/

/-- Modelled from the spec: BreakpointState
(`model/breakpoint_state.py` is not under src/). Per spec section 3 it
carries a "stopped" flag; only that flag is read by the code under src/
(`is_stopped()`). Its `fail_hard` call is modelled as an emitted effect. -/
structure BreakpointState where
  stopped : Bool
deriving DecidableEq, Repr

/-- `is_stopped()` reads the stopped flag. -/
def BreakpointState.is_stopped (b : BreakpointState) : Bool :=
  b.stopped

/-- The MainController fields the verified operations touch:
`emu_thread` truthiness, the current `breakpoint_state`, the stored
`_emu_is_running`, the `_stopped` flag, and truthiness of
`debugger.ground_engine_state`. -/
structure MainState where
  emuThread : Bool
  breakpointState : Option BreakpointState
  emuIsRunningStored : Bool
  stoppedFlag : Bool
  gesPresent : Bool
deriving DecidableEq, Repr

/-- The `emu_is_running` property (main.py lines 154-162): always false
while a breakpoint state exists and is stopped, otherwise the stored
`_emu_is_running`. -/
def emu_is_running (s : MainState) : Bool :=
  match s.breakpointState with
  | some bs => if bs.is_stopped then false else s.emuIsRunningStored
  | none => s.emuIsRunningStored

/-- Externally visible effects of MainController operations, emitted in
program order. -/
inductive Effect where
  | failHard
  | gesReset
  | emuOpenRom
  | emuResetNative
  | emuPauseNative
  | emuDestroyNative
  | threadStop
  | nativeSnapshotLoad
  | gesDeserialize
  | loadDebuggerState
  | setButtonsRunning
  | setButtonsPaused
  | setButtonsStopped
  | errorDialog
  | infoBarWarning
deriving DecidableEq, Repr

/-- `emu_reset` (lines 654-670): if an emulator thread exists, fail-hard any
active breakpoint state, reset the ground engine state if present, then
reopen the ROM on the emulator; on success the stored running flag is
refreshed from `emu.is_running()`, on a RuntimeError an error dialog is
shown. `openOk` and `runningAfterOpen` are the emulator oracle. -/
def emu_reset (openOk runningAfterOpen : Bool) (s : MainState) : MainState × List Effect :=
  if s.emuThread then
    let t :=
      (if s.breakpointState.isSome then [Effect.failHard] else [])
        ++ (if s.gesPresent then [Effect.gesReset] else [])
    if openOk then
      ({ s with emuIsRunningStored := runningAfterOpen }, t ++ [Effect.emuOpenRom])
    else
      (s, t ++ [Effect.emuOpenRom, Effect.errorDialog])
  else
    (s, [])

/-- `emu_stop` (lines 686-697): set `_stopped`, fail-hard any active
breakpoint state, reset and pause the native emulator, clear the stored
running flag, then update buttons, reload debugger state and warn in the
info bar. -/
def emu_stop (s : MainState) : MainState × List Effect :=
  let s1 := { s with stoppedFlag := true }
  if s1.emuThread then
    ({ s1 with emuIsRunningStored := false },
      (if s1.breakpointState.isSome then [Effect.failHard] else [])
        ++ [Effect.emuResetNative, Effect.emuPauseNative, Effect.setButtonsStopped,
            Effect.loadDebuggerState, Effect.infoBarWarning])
  else
    (s1, [])

/-- `gtk_main_quit` (lines 200-205): fail-hard any active breakpoint state,
destroy the native emulator, stop the emulator thread. -/
def gtk_main_quit (s : MainState) : MainState × List Effect :=
  (s,
    (if s.breakpointState.isSome then [Effect.failHard] else [])
      ++ [Effect.emuDestroyNative, Effect.threadStop])

/-- Environment of one `loadstate` call (lines 591-621).
`jsonExists` is `os.path.exists(ground_engine_savestate_path)`;
`preLoadRunning` is `emu.is_running()` read into `was_running` before the
reset; `openOk`/`runningAfterOpen` feed the inner `emu_reset`;
`nativeLoadOk` and `deserializeOk` say whether `savestate.load_file` and
the JSON deserialize raise; `runningAfterLoad` is the `emu.is_running()`
read after the snapshot load.
`savedIsRunning` is modelled from the spec: the `is_running` flag the spec
says was recorded with the savestate artifacts; the code under src/ never
reads it. -/
structure LoadInput where
  jsonExists : Bool
  preLoadRunning : Bool
  savedIsRunning : Bool
  openOk : Bool
  runningAfterOpen : Bool
  nativeLoadOk : Bool
  deserializeOk : Bool
  runningAfterLoad : Bool
deriving DecidableEq, Repr

/-- `loadstate` (lines 591-621): if the ground-engine JSON file does not
exist, nothing at all happens (the `if os.path.exists` has no else branch).
Otherwise: record `was_running`, clear `_stopped`, run `emu_reset`, load
the native snapshot, deserialize the JSON into the ground engine state,
refresh the stored running flag, reload the debugger state and set the
buttons according to `was_running`; any exception in the try block shows an
error dialog. -/
def loadstate (inp : LoadInput) (s : MainState) : MainState × List Effect :=
  if inp.jsonExists then
    let s1 := { s with stoppedFlag := false }
    let r := emu_reset inp.openOk inp.runningAfterOpen s1
    if inp.nativeLoadOk then
      if inp.deserializeOk then
        ({ r.1 with emuIsRunningStored := inp.runningAfterLoad },
          r.2 ++ [Effect.nativeSnapshotLoad, Effect.gesDeserialize, Effect.loadDebuggerState,
            if inp.preLoadRunning then Effect.setButtonsRunning else Effect.setButtonsPaused])
      else
        (r.1, r.2 ++ [Effect.nativeSnapshotLoad, Effect.errorDialog])
    else
      (r.1, r.2 ++ [Effect.errorDialog])
  else
    (s, [])

/-- SAVESTATE_EXT_DESUME (main.py line 50). -/
def SAVESTATE_EXT_DESUME : String := "ds"

/-- SAVESTATE_EXT_GROUND_ENGINE (main.py line 51). -/
def SAVESTATE_EXT_GROUND_ENGINE : String := "ge.json"

/-- Outcome of one `savestate` call: the two paths it targets, which files
were written, whether the error dialog was shown, and the in-memory ground
engine state it leaves behind (opaque value). -/
structure SaveOutcome where
  nativePath : String
  jsonPath : String
  jsonWritten : Bool
  nativeWritten : Bool
  errorReported : Bool
  ges : Nat
deriving DecidableEq, Repr

/-- `savestate` (lines 569-589): build the two paths with `os.path.join`
and the f-string `rom_basename.save.i.EXT`; write the serialized ground
engine state as JSON, then the native snapshot under the emulator thread;
any exception shows an error dialog and returns. The JSON write happens
first, so a native-save failure leaves the JSON file written (no
rollback). `ges` is the opaque in-memory ground engine state, which the
function only serializes (never mutates). -/
def savestate (configDir romBasename : String) (i : Nat)
    (jsonWriteOk nativeSaveOk : Bool) (ges : Nat) : SaveOutcome :=
  let dsPath := configDir ++ "/" ++ (romBasename ++ ".save." ++ toString i ++ "." ++ SAVESTATE_EXT_DESUME)
  let gePath := configDir ++ "/" ++ (romBasename ++ ".save." ++ toString i ++ "." ++ SAVESTATE_EXT_GROUND_ENGINE)
  if jsonWriteOk then
    if nativeSaveOk then
      { nativePath := dsPath, jsonPath := gePath, jsonWritten := true,
        nativeWritten := true, errorReported := false, ges := ges }
    else
      { nativePath := dsPath, jsonPath := gePath, jsonWritten := true,
        nativeWritten := false, errorReported := true, ges := ges }
  else
    { nativePath := dsPath, jsonPath := gePath, jsonWritten := false,
      nativeWritten := false, errorReported := true, ges := ges }

/-! ## Concrete states used by witnesses and counterexamples -/

/-- A controller state with an emulator thread, no active breakpoint, and a
ground engine state present. -/
def mainStatePlain : MainState :=
  { emuThread := true, breakpointState := none, emuIsRunningStored := true,
    stoppedFlag := false, gesPresent := true }

/-- A controller state with an active, stopped breakpoint state. -/
def mainStateBP : MainState :=
  { emuThread := true, breakpointState := some { stopped := true },
    emuIsRunningStored := false, stoppedFlag := false, gesPresent := true }

/-- A loadstate environment whose ground-engine JSON artifact is missing. -/
def loadInputMissing : LoadInput :=
  { jsonExists := false, preLoadRunning := true, savedIsRunning := true,
    openOk := true, runningAfterOpen := true, nativeLoadOk := true,
    deserializeOk := true, runningAfterLoad := true }

/-- A loadstate environment where every step succeeds, the savestate
artifacts recorded `is_running = false`, but the emulator was running just
before the load. -/
def loadInputSavedPaused : LoadInput :=
  { jsonExists := true, preLoadRunning := true, savedIsRunning := false,
    openOk := true, runningAfterOpen := true, nativeLoadOk := true,
    deserializeOk := true, runningAfterLoad := false }

/-- A ground engine view that is running with one actor on camera. -/
def gesOneActor : GroundEngineView :=
  { running := true, actors := [some { x1 := 0, y1 := 0, x2 := 1, y2 := 1 }],
    objects := [], performers := [], events := [] }

/-- A ground engine view that is not running but still holds an entity. -/
def gesNotRunning : GroundEngineView :=
  { running := false, actors := [some { x1 := 2, y1 := 2, x2 := 3, y2 := 3 }],
    objects := [], performers := [], events := [] }

/-- A controller state with a stopped breakpoint state while the stored
running flag is still true. -/
def mainStateBPStored : MainState :=
  { emuThread := true, breakpointState := some { stopped := true },
    emuIsRunningStored := true, stoppedFlag := false, gesPresent := true }

/-! ## Helper lemmas -/

theorem cycleInv_init : CycleChainInv initEmuThread := by
  decide

theorem cycleInv_step (s : EmuThreadState) (op : EmuOp) (h : CycleChainInv s) :
    CycleChainInv (emuStep s op) := by
  unfold CycleChainInv at h ⊢
  cases op with
  | registerLoop =>
    by_cases hr : s.registeredMainLoop <;>
      simp [emuStep, register_main_loop, hr] at h ⊢ <;> simp [h, hr]
  | cycle emuOk running =>
    by_cases hp : s.pendingCycles = 0
    · have heq : emuStep s (EmuOp.cycle emuOk running) = s := by
        simp [emuStep, emu_cycle, hp]
      rw [heq]
      exact h
    · have hr : s.registeredMainLoop = true := by
        by_contra hc
        rw [Bool.not_eq_true] at hc
        rw [hc] at h
        simp at h
        exact hp h
      rw [hr] at h
      simp at h
      cases emuOk <;> cases running <;>
        simp [emuStep, emu_cycle, hp, h, hr]

theorem cycleInv_fold (ops : List EmuOp) (s : EmuThreadState) (h : CycleChainInv s) :
    CycleChainInv (List.foldl emuStep s ops) := by
  induction ops generalizing s with
  | nil => exact h
  | cons op rest ih => exact ih (emuStep s op) (cycleInv_step s op h)

theorem cycleInv_run (ops : List EmuOp) : CycleChainInv (runEmu ops) :=
  cycleInv_fold ops initEmuThread cycleInv_init

theorem emu_reset_failhard_head (openOk runningAfterOpen : Bool) (s : MainState)
    (hbs : s.breakpointState.isSome = true) (hemu : s.emuThread = true) :
    ∃ t, (emu_reset openOk runningAfterOpen s).2 = Effect.failHard :: t := by
  unfold emu_reset
  rw [hemu]
  cases openOk <;> cases hg : s.gesPresent <;> simp [hbs, hg]

/-! ## Claim theorems -/

/-- C7: `register_main_loop` is idempotent: along any interleaving of
`register_main_loop` calls and `_emu_cycle` runs from the initial thread
state, at most one cycle callback is ever queued, and while the
`registered_main_loop` flag is set a further `register_main_loop` call is a
no-op and exactly one cycle callback is queued (one chain active) until the
chain ends and clears the flag. -/
theorem C7_register_main_loop_idempotent (ops : List EmuOp) :
    (runEmu ops).pendingCycles ≤ 1 ∧
    ((runEmu ops).registeredMainLoop = true →
      register_main_loop (runEmu ops) = runEmu ops ∧ (runEmu ops).pendingCycles = 1) := by
  have h := cycleInv_run ops
  unfold CycleChainInv at h
  constructor
  · rw [h]
    split <;> omega
  · intro hr
    constructor
    · simp [register_main_loop, hr]
    · rw [h, hr]
      rfl

/-- Witness for C7 at the concrete operation sequence `[registerLoop]`. -/
theorem C7_witness :
    (runEmu [EmuOp.registerLoop]).registeredMainLoop = true ∧
    register_main_loop (runEmu [EmuOp.registerLoop]) = runEmu [EmuOp.registerLoop] ∧
    (runEmu [EmuOp.registerLoop]).pendingCycles = 1 :=
  ⟨by decide,
   ((C7_register_main_loop_idempotent [EmuOp.registerLoop]).2 (by decide)).1,
   ((C7_register_main_loop_idempotent [EmuOp.registerLoop]).2 (by decide)).2⟩

/-- C8: the wait computed in `_emu_cycle` before scheduling the next cycle
is non-negative (clamped at zero), and the delay the cycle passes to
`call_later` for the next cycle never exceeds that computed wait. -/
theorem C8_cycle_wait_nonneg (ticksPrevFrame ticksCurFrame : ℤ) :
    0 ≤ ticks_to_wait ticksPrevFrame ticksCurFrame ∧
    next_cycle_delay ticksPrevFrame ticksCurFrame ≤ ticks_to_wait ticksPrevFrame ticksCurFrame := by
  refine ⟨?_, le_refl _⟩
  unfold ticks_to_wait
  dsimp only
  split
  · exact le_refl 0
  · next hneg => exact le_of_not_lt hneg

/-- C9: with the access-violation guard enabled, reading the `emu` property
from any thread that is not the emulator thread raises a RuntimeError
instead of silently returning the emulator object. -/
theorem C9_cross_thread_access_fails (currentThread threadInstance e : Nat)
    (h : currentThread ≠ threadInstance) :
    emu_accessor THREAD_DEBUG currentThread threadInstance e =
      Except.error EMU_ACCESS_ERROR := by
  simp [emu_accessor, THREAD_DEBUG, h]

/-- Witness for C9: thread 0 accessing while the emulator thread is 1. -/
theorem C9_witness :
    (0 : Nat) ≠ 1 ∧
    emu_accessor THREAD_DEBUG 0 1 5 = Except.error EMU_ACCESS_ERROR :=
  ⟨by decide, C9_cross_thread_access_fails 0 1 5 (by decide)⟩

/-- C10: `emu_is_running` returns false whenever a breakpoint state exists
and is stopped, regardless of the stored `_emu_is_running`; otherwise it
returns the stored value. -/
theorem C10_emu_is_running_property (s : MainState) :
    (∀ bs, s.breakpointState = some bs → bs.is_stopped = true →
      emu_is_running s = false) ∧
    ((∀ bs, s.breakpointState = some bs → bs.is_stopped = false) →
      emu_is_running s = s.emuIsRunningStored) := by
  constructor
  · intro bs hbs hst
    simp [emu_is_running, hbs, hst]
  · intro hall
    unfold emu_is_running
    cases hcase : s.breakpointState with
    | none => rfl
    | some bs =>
      have hb := hall bs hcase
      simp [hb]

/-- Witness for C10: a stopped breakpoint state forces false even though
the stored flag is true; with no breakpoint state the stored flag passes
through. -/
theorem C10_witness :
    emu_is_running mainStateBPStored = false ∧
    emu_is_running mainStatePlain = mainStatePlain.emuIsRunningStored :=
  ⟨(C10_emu_is_running_property mainStateBPStored).1 { stopped := true } rfl rfl,
   (C10_emu_is_running_property mainStatePlain).2 (by intro bs hbs; cases hbs)⟩

/-- C1 counterexample: the claim says a loadstate on a slot whose JSON
artifact is missing fails with a "no debugger state for slot" error; in the
code the `if os.path.exists` has no else branch, so no error of any kind is
reported: at the concrete missing-artifact input the effect list is empty. -/
theorem C1_counterexample :
    ¬ (∀ (inp : LoadInput) (s : MainState), inp.jsonExists = false →
        Effect.errorDialog ∈ (loadstate inp s).2) := by
  intro h
  exact absurd (h loadInputMissing mainStatePlain rfl) (by decide)

/-- C1 (amended): if the ground-engine JSON artifact for the slot is
missing, `loadstate` silently does nothing: no error is reported, the
native snapshot is not loaded, no emulator reset happens, and the
controller state is unchanged. -/
theorem C1_missing_json_noop (inp : LoadInput) (s : MainState)
    (h : inp.jsonExists = false) :
    loadstate inp s = (s, []) := by
  unfold loadstate
  rw [h]
  simp

/-- Witness for C1 at the concrete missing-artifact input. -/
theorem C1_witness :
    loadstate loadInputMissing mainStatePlain = (mainStatePlain, []) :=
  C1_missing_json_noop loadInputMissing mainStatePlain rfl

/-- C2: `savestate` targets `{config_dir}/{rom_basename}.save.{i}.ds` for
the native snapshot and `{config_dir}/{rom_basename}.save.{i}.ge.json` for
the serialized ground engine state; if either write fails the error dialog
is shown; a file already written (the JSON, which is written first) is not
rolled back when the native save fails; and the in-memory ground engine
state is unaltered. -/
theorem C2_savestate_pair (configDir romBasename : String) (i : Nat)
    (jsonWriteOk nativeSaveOk : Bool) (ges : Nat) :
    (savestate configDir romBasename i jsonWriteOk nativeSaveOk ges).nativePath =
      configDir ++ "/" ++ (romBasename ++ ".save." ++ toString i ++ ".ds") ∧
    (savestate configDir romBasename i jsonWriteOk nativeSaveOk ges).jsonPath =
      configDir ++ "/" ++ (romBasename ++ ".save." ++ toString i ++ ".ge.json") ∧
    (jsonWriteOk = true ∧ nativeSaveOk = true →
      (savestate configDir romBasename i jsonWriteOk nativeSaveOk ges).jsonWritten = true ∧
      (savestate configDir romBasename i jsonWriteOk nativeSaveOk ges).nativeWritten = true ∧
      (savestate configDir romBasename i jsonWriteOk nativeSaveOk ges).errorReported = false) ∧
    (jsonWriteOk = false ∨ nativeSaveOk = false →
      (savestate configDir romBasename i jsonWriteOk nativeSaveOk ges).errorReported = true) ∧
    (jsonWriteOk = true →
      (savestate configDir romBasename i jsonWriteOk nativeSaveOk ges).jsonWritten = true) ∧
    (savestate configDir romBasename i jsonWriteOk nativeSaveOk ges).ges = ges := by
  have hds : romBasename ++ ".save." ++ toString i ++ "." ++ SAVESTATE_EXT_DESUME =
      romBasename ++ ".save." ++ toString i ++ ".ds" := by
    rw [SAVESTATE_EXT_DESUME, String.append_assoc]
    rfl
  have hge : romBasename ++ ".save." ++ toString i ++ "." ++ SAVESTATE_EXT_GROUND_ENGINE =
      romBasename ++ ".save." ++ toString i ++ ".ge.json" := by
    rw [SAVESTATE_EXT_GROUND_ENGINE, String.append_assoc]
    rfl
  cases jsonWriteOk <;> cases nativeSaveOk <;>
    simp [savestate, hds, hge]

/-- Witness for C2: with the JSON written and the native save failing, the
error is reported and the JSON file stays written. -/
theorem C2_witness :
    (savestate "cfg" "rom.nds" 1 true false 7).errorReported = true ∧
    (savestate "cfg" "rom.nds" 1 true false 7).jsonWritten = true ∧
    (savestate "cfg" "rom.nds" 1 true false 7).ges = 7 :=
  ⟨(C2_savestate_pair "cfg" "rom.nds" 1 true false 7).2.2.2.1 (Or.inr rfl),
   (C2_savestate_pair "cfg" "rom.nds" 1 true false 7).2.2.2.2.1 rfl,
   (C2_savestate_pair "cfg" "rom.nds" 1 true false 7).2.2.2.2.2⟩

/-- C3 counterexample: the claim says the running/paused button state is
restored to the `is_running` flag saved with the savestate; the code sets
it from `was_running`, the emulator's running state read just before the
reset. At an input whose artifacts recorded `is_running = false` while the
emulator was running pre-load, the claimed button effect never occurs. -/
theorem C3_counterexample :
    ¬ (∀ (inp : LoadInput) (s : MainState),
        inp.jsonExists = true → inp.openOk = true → inp.nativeLoadOk = true →
        inp.deserializeOk = true → s.emuThread = true →
        (if inp.savedIsRunning then Effect.setButtonsRunning else Effect.setButtonsPaused)
          ∈ (loadstate inp s).2) := by
  intro h
  exact absurd (h loadInputSavedPaused mainStatePlain rfl rfl rfl rfl rfl) (by decide)

/-- C3 (amended): for every successful loadstate of a slot whose JSON
artifact exists, the effects are, in order: the emulation-clock reset
(fail-hard of any active breakpoint state, ground-engine reset, ROM
reopen), the native snapshot load, the JSON deserialize into the ground
engine state, the debugger-state reload, and finally the running/paused
buttons set to match the emulator running state observed just before the
reset (`was_running`), not a flag stored in the savestate. -/
theorem C3_loadstate_sequence (inp : LoadInput) (s : MainState)
    (hjson : inp.jsonExists = true) (hopen : inp.openOk = true)
    (hload : inp.nativeLoadOk = true) (hdeser : inp.deserializeOk = true)
    (hemu : s.emuThread = true) :
    (loadstate inp s).2 =
      (if s.breakpointState.isSome then [Effect.failHard] else [])
        ++ (if s.gesPresent then [Effect.gesReset] else [])
        ++ [Effect.emuOpenRom, Effect.nativeSnapshotLoad, Effect.gesDeserialize,
            Effect.loadDebuggerState,
            if inp.preLoadRunning then Effect.setButtonsRunning else Effect.setButtonsPaused] := by
  unfold loadstate emu_reset
  rw [hjson, hopen, hload, hdeser]
  simp [hemu]

/-- Witness for C3 at a concrete successful load: the emulator was running
pre-load, so the buttons are set to running. -/
theorem C3_witness :
    (loadstate loadInputSavedPaused mainStatePlain).2 =
      [Effect.gesReset, Effect.emuOpenRom, Effect.nativeSnapshotLoad,
       Effect.gesDeserialize, Effect.loadDebuggerState, Effect.setButtonsRunning] := by
  have h := C3_loadstate_sequence loadInputSavedPaused mainStatePlain rfl rfl rfl rfl rfl
  simpa using h

/-- C4: whenever a breakpoint state is active and an emulator thread
exists, `emu_reset`, `emu_stop`, `gtk_main_quit` and a `loadstate` of an
existing slot all invoke `fail_hard` on it first, before any native
reset/stop/teardown effect. -/
theorem C4_fail_hard_before_teardown (s : MainState)
    (hbs : s.breakpointState.isSome = true) (hemu : s.emuThread = true) :
    (∀ openOk runningAfterOpen,
      ∃ t, (emu_reset openOk runningAfterOpen s).2 = Effect.failHard :: t) ∧
    (∃ t, (emu_stop s).2 = Effect.failHard :: t) ∧
    (∃ t, (gtk_main_quit s).2 = Effect.failHard :: t) ∧
    (∀ inp, inp.jsonExists = true →
      ∃ t, (loadstate inp s).2 = Effect.failHard :: t) := by
  refine ⟨?_, ?_, ?_, ?_⟩
  · intro openOk runningAfterOpen
    exact emu_reset_failhard_head openOk runningAfterOpen s hbs hemu
  · unfold emu_stop
    simp [hemu, hbs]
  · unfold gtk_main_quit
    simp [hbs]
  · intro inp hjson
    unfold loadstate
    rw [hjson]
    have h1 : ({ s with stoppedFlag := false } : MainState).breakpointState.isSome = true := hbs
    have h2 : ({ s with stoppedFlag := false } : MainState).emuThread = true := hemu
    obtain ⟨t, ht⟩ := emu_reset_failhard_head inp.openOk inp.runningAfterOpen
      { s with stoppedFlag := false } h1 h2
    cases hn : inp.nativeLoadOk <;> cases hd : inp.deserializeOk <;>
      simp [ht]

/-- Witness for C4 at a concrete state with an active breakpoint state. -/
theorem C4_witness :
    ∃ t, (emu_stop mainStateBP).2 = Effect.failHard :: t :=
  (C4_fail_hard_before_teardown mainStateBP rfl rfl).2.1

/-- C5 counterexample: the claim says every invocation of the refresh path
after `break_pulled()` leaves the four bounding-box caches unchanged; in
the code `_update_cache` rebuilds them whenever the ground engine is
running, regardless of `_refresh_cache`, so an already-scheduled refresh
invocation after `break_pulled()` still mutates the caches. -/
theorem C5_counterexample :
    ¬ (∀ (ges : GroundEngineView) (s : OverlayState),
        (update_cache ges (overlayBreakPulled s)).1.actorBboxCache
            = (overlayBreakPulled s).actorBboxCache ∧
        (update_cache ges (overlayBreakPulled s)).1.objectBboxCache
            = (overlayBreakPulled s).objectBboxCache ∧
        (update_cache ges (overlayBreakPulled s)).1.perfBboxCache
            = (overlayBreakPulled s).perfBboxCache ∧
        (update_cache ges (overlayBreakPulled s)).1.eventBboxCache
            = (overlayBreakPulled s).eventBboxCache) := by
  intro h
  exact absurd (h gesOneActor (mkOverlay true)).1 (by decide)

/-- C5 (amended): after `break_pulled()` the refresh chain is disarmed:
`draw` schedules no refresh, and an invoked refresh does not reschedule
itself and clears the registered flag, so the chain ends; an
already-scheduled refresh invocation, however, still rebuilds the caches
from the ground engine state when it is running (leaving them unchanged
only when the engine is not running), until `break_released()` re-arms
refreshing. -/
theorem C5_overlay_freeze (s : OverlayState) (ges : GroundEngineView) :
    (∀ displayId, (draw displayId (overlayBreakPulled s)).scheduledRefresh = false) ∧
    (update_cache ges (overlayBreakPulled s)).2 = false ∧
    (update_cache ges (overlayBreakPulled s)).1.cacheRedrawingRegistered = false ∧
    (ges.running = false →
      (update_cache ges (overlayBreakPulled s)).1.actorBboxCache = s.actorBboxCache ∧
      (update_cache ges (overlayBreakPulled s)).1.objectBboxCache = s.objectBboxCache ∧
      (update_cache ges (overlayBreakPulled s)).1.perfBboxCache = s.perfBboxCache ∧
      (update_cache ges (overlayBreakPulled s)).1.eventBboxCache = s.eventBboxCache) ∧
    (ges.running = true →
      (update_cache ges (overlayBreakPulled s)).1.actorBboxCache = not_none ges.actors ∧
      (update_cache ges (overlayBreakPulled s)).1.objectBboxCache = not_none ges.objects ∧
      (update_cache ges (overlayBreakPulled s)).1.perfBboxCache = not_none ges.performers ∧
      (update_cache ges (overlayBreakPulled s)).1.eventBboxCache = not_none ges.events) := by
  refine ⟨?_, ?_, ?_, ?_, ?_⟩
  · intro displayId
    unfold draw overlayBreakPulled
    split
    · simp
      split <;> rfl
    · rfl
  · cases hr : ges.running <;> simp [update_cache, overlayBreakPulled, hr]
  · cases hr : ges.running <;> simp [update_cache, overlayBreakPulled, hr]
  · intro hr
    simp [update_cache, overlayBreakPulled, hr]
  · intro hr
    simp [update_cache, overlayBreakPulled, hr]

/-- Witness for C5 at the freshly-constructed overlay state. -/
theorem C5_witness :
    (draw 1 (overlayBreakPulled (mkOverlay true))).scheduledRefresh = false ∧
    (update_cache gesOneActor (overlayBreakPulled (mkOverlay true))).2 = false ∧
    (update_cache gesOneActor (overlayBreakPulled (mkOverlay true))).1.actorBboxCache
      = not_none gesOneActor.actors :=
  ⟨(C5_overlay_freeze (mkOverlay true) gesOneActor).1 1,
   (C5_overlay_freeze (mkOverlay true) gesOneActor).2.1,
   ((C5_overlay_freeze (mkOverlay true) gesOneActor).2.2.2.2 rfl).1⟩

/-- C6: a refresh that observes the ground engine not running clears the
cached running flag and leaves the bounding-box caches untouched, and a
draw call paints no bounding boxes while the cached running flag is false,
so stale collections are never drawn. -/
theorem C6_stale_never_drawn (ges : GroundEngineView) (s : OverlayState) :
    (ges.running = false →
      (update_cache ges s).1.cacheRunning = false ∧
      (update_cache ges s).1.actorBboxCache = s.actorBboxCache ∧
      (update_cache ges s).1.objectBboxCache = s.objectBboxCache ∧
      (update_cache ges s).1.perfBboxCache = s.perfBboxCache ∧
      (update_cache ges s).1.eventBboxCache = s.eventBboxCache) ∧
    (∀ displayId, s.cacheRunning = false → (draw displayId s).rects = []) := by
  constructor
  · intro hr
    cases hrc : s.refreshCache <;> simp [update_cache, hr, hrc]
  · intro displayId hc
    unfold draw
    split
    · cases hs : (s.refreshCache && !s.cacheRedrawingRegistered) <;> simp [hs, hc]
    · rfl

/-- Witness for C6: a non-running refresh on the fresh overlay, and a draw
with the cached running flag clear. -/
theorem C6_witness :
    (update_cache gesNotRunning (mkOverlay true)).1.cacheRunning = false ∧
    (draw 1 (mkOverlay true)).rects = [] :=
  ⟨((C6_stale_never_drawn gesNotRunning (mkOverlay true)).1 rfl).1,
   (C6_stale_never_drawn gesNotRunning (mkOverlay true)).2 1 rfl⟩

end SkyTemple
